import Mathlib

set_option maxRecDepth 10000

/-!
# Verification of the `mfile` libmagic binding (`src/mfile/magic.py`)

Shallow embedding of the wrapper's observable behaviour:

* Python runtime values relevant to the wrapper are `PyValue`
  (`None`, `bool`, `int`, `str` as a list of Unicode code points,
  `bytes` as a list of byte values); raised exceptions are `PyError`.
* `coerce_filename` embeds the module-level helper, with the CPython
  semantics of `str.encode("utf-8", "surrogateescape")` (PEP 383) spelled
  out as `encodeCp`/`encodeSE`, and the corresponding surrogateescape
  decoder `decodeSE` used to state the byte round-trip property.
* The native libmagic library is external to the repository; its calls are
  modelled from the spec's external-interface contract (spec section 6) as
  state transitions on `NativeState`, with genuinely external outcomes
  (detection results, success/failure of int-returning calls, the error
  message/code reported after a failure) supplied by an `Oracle`.
* Each `Magic` method becomes a function from the session state, the
  oracle and the Python-level arguments to a triple
  `(Except PyError PyValue, new state, event trace)`; the trace records
  lock acquisition/release and every native call (tagged with whether the
  call takes the session cookie as an argument).
-/

/-- Python values the wrapper handles: `None`, booleans, integers,
text strings (as lists of Unicode code points, which in CPython may
include lone surrogates produced by surrogateescape decoding) and byte
strings (as lists of byte values). -/
inductive PyValue where
  | none
  | bool (b : Bool)
  | int (n : Int)
  | str (s : List Nat)
  | bytes (b : List Nat)
deriving DecidableEq

/-- Python type name, as used in the `TypeError` message of `Magic.from_buffer`. -/
def typeNameOf : PyValue → String
  | PyValue.none => "NoneType"
  | PyValue.bool _ => "bool"
  | PyValue.int _ => "int"
  | PyValue.str _ => "str"
  | PyValue.bytes _ => "bytes"

/-- Whether a Python value is a `bytes` instance (`isinstance(v, bytes)`). -/
def PyValue.isBytes : PyValue → Bool
  | PyValue.bytes _ => true
  | _ => false

/-- Whether a Python value is a `str` instance. -/
def PyValue.isStr : PyValue → Bool
  | PyValue.str _ => true
  | _ => false

/-- Exceptions raised by the wrapper code:
`TypeError` (from `Magic.from_buffer`, carrying the offending type's name),
`MagicException` (defined in the source as a `RuntimeError` subclass
carrying the native error message — a byte string or `None` — and the
native error code), `UnicodeEncodeError` (from CPython's codec machinery
when `coerce_filename` meets a surrogate outside the escape range),
`AttributeError` and `NotImplementedError` (from `MagicDLL.__getattr__`). -/
inductive PyError where
  | typeError (typeName : String)
  | magicException (message : Option (List Nat)) (errno : Int)
  | unicodeEncodeError
  | attributeError (item : String)
  | notImplementedError (item : String)
deriving DecidableEq

/-! ## UTF-8 with the surrogateescape error handler (PEP 383)

`coerce_filename` calls `filename.encode('utf-8', 'surrogateescape')`.
CPython encodes each code point by standard UTF-8; the `surrogateescape`
error handler additionally maps the lone surrogates U+DC80..U+DCFF (the
escapes produced when bytes 0x80..0xFF failed to decode) back to the single
byte `cp - 0xDC00`, and *raises* `UnicodeEncodeError` on any other
surrogate (U+D800..U+DC7F and U+DD00..U+DFFF), since those would not map
back to a byte ≥ 0x80. -/

/-- Encode one code point: UTF-8, with surrogateescape for U+DC80..U+DCFF.
`none` means `UnicodeEncodeError`. -/
def encodeCp (cp : Nat) : Option (List Nat) :=
  if cp < 0x80 then some [cp]
  else if cp < 0x800 then some [0xC0 + cp / 0x40, 0x80 + cp % 0x40]
  else if cp < 0xD800 then
    some [0xE0 + cp / 0x1000, 0x80 + cp / 0x40 % 0x40, 0x80 + cp % 0x40]
  else if cp < 0xDC80 then Option.none
  else if cp < 0xDD00 then some [cp - 0xDC00]
  else if cp < 0xE000 then Option.none
  else if cp < 0x10000 then
    some [0xE0 + cp / 0x1000, 0x80 + cp / 0x40 % 0x40, 0x80 + cp % 0x40]
  else if cp < 0x110000 then
    some [0xF0 + cp / 0x40000, 0x80 + cp / 0x1000 % 0x40,
          0x80 + cp / 0x40 % 0x40, 0x80 + cp % 0x40]
  else Option.none

/-- Encode a whole string (list of code points); `none` if any code point
raises `UnicodeEncodeError`. -/
def encodeSE : List Nat → Option (List Nat)
  | [] => some []
  | cp :: rest =>
    match encodeCp cp, encodeSE rest with
    | some b, some bs => some (b ++ bs)
    | _, _ => Option.none

/-- Continuation byte predicate (second and later bytes of a multi-byte
UTF-8 sequence). -/
def isCont (b : Nat) : Prop := 0x80 ≤ b ∧ b ≤ 0xBF

instance (b : Nat) : Decidable (isCont b) := by
  unfold isCont; infer_instance

/-- Constraint on the second byte of a multi-byte sequence, as enforced by
CPython's UTF-8 decoder: rules out overlong encodings (`0xE0`, `0xF0`),
encoded surrogates (`0xED`) and code points above U+10FFFF (`0xF4`). -/
def validC1 (b c : Nat) : Prop :=
  if b = 0xE0 then 0xA0 ≤ c ∧ c ≤ 0xBF
  else if b = 0xED then 0x80 ≤ c ∧ c ≤ 0x9F
  else if b = 0xF0 then 0x90 ≤ c ∧ c ≤ 0xBF
  else if b = 0xF4 then 0x80 ≤ c ∧ c ≤ 0x8F
  else 0x80 ≤ c ∧ c ≤ 0xBF

instance (b c : Nat) : Decidable (validC1 b c) := by
  unfold validC1; infer_instance

/-- Code point of a two-byte sequence. -/
def cont2 (b c : Nat) : Nat := (b - 0xC0) * 0x40 + (c - 0x80)

/-- Code point of a three-byte sequence. -/
def cont3 (b c d : Nat) : Nat :=
  (b - 0xE0) * 0x1000 + (c - 0x80) * 0x40 + (d - 0x80)

/-- Code point of a four-byte sequence. -/
def cont4 (b c d e : Nat) : Nat :=
  (b - 0xF0) * 0x40000 + (c - 0x80) * 0x1000 + (d - 0x80) * 0x40 + (e - 0x80)

/-- UTF-8 decoding with the surrogateescape error handler: valid sequences
decode normally; each byte that cannot begin (or continue into) a valid
sequence becomes the lone surrogate `0xDC00 + byte`.  This is how CPython
decodes filesystem paths, each undecodable byte being escaped
individually. -/
def decodeSE : List Nat → List Nat
  | [] => []
  | [b] => if b < 0x80 then [b] else [0xDC00 + b]
  | [b, c] =>
    if b < 0x80 then b :: decodeSE [c]
    else if 0xC2 ≤ b ∧ b ≤ 0xDF then
      if isCont c then [cont2 b c] else (0xDC00 + b) :: decodeSE [c]
    else (0xDC00 + b) :: decodeSE [c]
  | [b, c, d] =>
    if b < 0x80 then b :: decodeSE [c, d]
    else if 0xC2 ≤ b ∧ b ≤ 0xDF then
      if isCont c then cont2 b c :: decodeSE [d]
      else (0xDC00 + b) :: decodeSE [c, d]
    else if 0xE0 ≤ b ∧ b ≤ 0xEF then
      if validC1 b c ∧ isCont d then [cont3 b c d]
      else (0xDC00 + b) :: decodeSE [c, d]
    else (0xDC00 + b) :: decodeSE [c, d]
  | b :: c :: d :: e :: rest =>
    if b < 0x80 then b :: decodeSE (c :: d :: e :: rest)
    else if 0xC2 ≤ b ∧ b ≤ 0xDF then
      if isCont c then cont2 b c :: decodeSE (d :: e :: rest)
      else (0xDC00 + b) :: decodeSE (c :: d :: e :: rest)
    else if 0xE0 ≤ b ∧ b ≤ 0xEF then
      if validC1 b c ∧ isCont d then cont3 b c d :: decodeSE (e :: rest)
      else (0xDC00 + b) :: decodeSE (c :: d :: e :: rest)
    else if 0xF0 ≤ b ∧ b ≤ 0xF4 then
      if validC1 b c ∧ isCont d ∧ isCont e then
        cont4 b c d e :: decodeSE rest
      else (0xDC00 + b) :: decodeSE (c :: d :: e :: rest)
    else (0xDC00 + b) :: decodeSE (c :: d :: e :: rest)

/-- Embedding of the module-level `coerce_filename`:
`None` is passed through (ctypes marshals it to a native null pointer, not
an empty byte string); a `str` is encoded with
`.encode('utf-8', 'surrogateescape')`, which may raise
`UnicodeEncodeError`; anything else (in particular `bytes`) is returned
unchanged. -/
def coerce_filename : PyValue → Except PyError PyValue
  | PyValue.none => Except.ok PyValue.none
  | PyValue.str s =>
    match encodeSE s with
    | some bs => Except.ok (PyValue.bytes bs)
    | Option.none => Except.error PyError.unicodeEncodeError
  | v => Except.ok v

example : coerce_filename (PyValue.str [0x66, 0xDCFF, 0x6F]) =
    Except.ok (PyValue.bytes [0x66, 0xFF, 0x6F]) := rfl

example : decodeSE [0x66, 0xFF, 0x6F] = [0x66, 0xDCFF, 0x6F] := by decide

example : decodeSE [0xE2, 0x82, 0xAC] = [0x20AC] := by decide

example : encodeSE [0x20AC] = some [0xE2, 0x82, 0xAC] := by decide

/-! ### Round-trip lemmas for the filename encoding -/

/-- Unfolding lemma for `encodeSE` on a cons cell. -/
theorem encodeSE_cons (cp : Nat) (l : List Nat) :
    encodeSE (cp :: l) =
      match encodeCp cp, encodeSE l with
      | some b, some bs => some (b ++ bs)
      | _, _ => Option.none := rfl

/-- An ASCII code point encodes to itself. -/
theorem encodeCp_ascii (cp : Nat) (h : cp < 0x80) :
    encodeCp cp = some [cp] := by
  unfold encodeCp
  rw [if_pos h]

/-- An escape surrogate U+DC80..U+DCFF encodes back to its byte. -/
theorem encodeCp_esc (b : Nat) (h1 : 0x80 ≤ b) (h2 : b < 0x100) :
    encodeCp (0xDC00 + b) = some [b] := by
  unfold encodeCp
  have g1 : ¬ 0xDC00 + b < 0x80 := by omega
  have g2 : ¬ 0xDC00 + b < 0x800 := by omega
  have g3 : ¬ 0xDC00 + b < 0xD800 := by omega
  have g4 : ¬ 0xDC00 + b < 0xDC80 := by omega
  have g5 : 0xDC00 + b < 0xDD00 := by omega
  have g6 : 0xDC00 + b - 0xDC00 = b := by omega
  rw [if_neg g1, if_neg g2, if_neg g3, if_neg g4, if_pos g5, g6]

/-- The code point of a valid two-byte sequence encodes back to it. -/
theorem encodeCp_two (b c : Nat) (hb1 : 0xC2 ≤ b) (hb2 : b ≤ 0xDF)
    (hc : isCont c) : encodeCp (cont2 b c) = some [b, c] := by
  obtain ⟨hc1, hc2⟩ := hc
  unfold encodeCp cont2
  have g1 : ¬ (b - 0xC0) * 0x40 + (c - 0x80) < 0x80 := by omega
  have g2 : (b - 0xC0) * 0x40 + (c - 0x80) < 0x800 := by omega
  have e1 : 0xC0 + ((b - 0xC0) * 0x40 + (c - 0x80)) / 0x40 = b := by omega
  have e2 : 0x80 + ((b - 0xC0) * 0x40 + (c - 0x80)) % 0x40 = c := by omega
  rw [if_neg g1, if_pos g2, e1, e2]

/-- Bounds packaged out of `validC1`. -/
theorem validC1_bounds (b c : Nat) (h : validC1 b c) :
    0x80 ≤ c ∧ c ≤ 0xBF ∧ (b = 0xE0 → 0xA0 ≤ c) ∧ (b = 0xED → c ≤ 0x9F) ∧
      (b = 0xF0 → 0x90 ≤ c) ∧ (b = 0xF4 → c ≤ 0x8F) := by
  unfold validC1 at h
  split at h
  · omega
  · split at h
    · omega
    · split at h
      · omega
      · split at h <;> omega

/-- The code point of a valid three-byte sequence encodes back to it. -/
theorem encodeCp_three (b c d : Nat) (hb1 : 0xE0 ≤ b) (hb2 : b ≤ 0xEF)
    (hc : validC1 b c) (hd : isCont d) :
    encodeCp (cont3 b c d) = some [b, c, d] := by
  obtain ⟨hc1, hc2, hcE0, hcED, _, _⟩ := validC1_bounds b c hc
  obtain ⟨hd1, hd2⟩ := hd
  unfold encodeCp cont3
  have e1 : 0xE0 + ((b - 0xE0) * 0x1000 + (c - 0x80) * 0x40 + (d - 0x80)) / 0x1000 = b := by
    omega
  have e2 : 0x80 + ((b - 0xE0) * 0x1000 + (c - 0x80) * 0x40 + (d - 0x80)) / 0x40 % 0x40 = c := by
    omega
  have e3 : 0x80 + ((b - 0xE0) * 0x1000 + (c - 0x80) * 0x40 + (d - 0x80)) % 0x40 = d := by
    omega
  have g1 : ¬ (b - 0xE0) * 0x1000 + (c - 0x80) * 0x40 + (d - 0x80) < 0x80 := by
    omega
  have g2 : ¬ (b - 0xE0) * 0x1000 + (c - 0x80) * 0x40 + (d - 0x80) < 0x800 := by
    omega
  by_cases hlow : (b - 0xE0) * 0x1000 + (c - 0x80) * 0x40 + (d - 0x80) < 0xD800
  · rw [if_neg g1, if_neg g2, if_pos hlow, e1, e2, e3]
  · have hhigh : 0xE000 ≤ (b - 0xE0) * 0x1000 + (c - 0x80) * 0x40 + (d - 0x80) := by
      omega
    have g4 : ¬ (b - 0xE0) * 0x1000 + (c - 0x80) * 0x40 + (d - 0x80) < 0xDC80 := by
      omega
    have g5 : ¬ (b - 0xE0) * 0x1000 + (c - 0x80) * 0x40 + (d - 0x80) < 0xDD00 := by
      omega
    have g6 : ¬ (b - 0xE0) * 0x1000 + (c - 0x80) * 0x40 + (d - 0x80) < 0xE000 := by
      omega
    have g7 : (b - 0xE0) * 0x1000 + (c - 0x80) * 0x40 + (d - 0x80) < 0x10000 := by
      omega
    rw [if_neg g1, if_neg g2, if_neg hlow, if_neg g4, if_neg g5, if_neg g6,
        if_pos g7, e1, e2, e3]

/-- The code point of a valid four-byte sequence encodes back to it. -/
theorem encodeCp_four (b c d e : Nat) (hb1 : 0xF0 ≤ b) (hb2 : b ≤ 0xF4)
    (hc : validC1 b c) (hd : isCont d) (he : isCont e) :
    encodeCp (cont4 b c d e) = some [b, c, d, e] := by
  obtain ⟨hc1, hc2, _, _, hcF0, hcF4⟩ := validC1_bounds b c hc
  obtain ⟨hd1, hd2⟩ := hd
  obtain ⟨he1, he2⟩ := he
  unfold encodeCp cont4
  have e1 : 0xF0 + ((b - 0xF0) * 0x40000 + (c - 0x80) * 0x1000 + (d - 0x80) * 0x40 + (e - 0x80)) / 0x40000 = b := by
    omega
  have e2 : 0x80 + ((b - 0xF0) * 0x40000 + (c - 0x80) * 0x1000 + (d - 0x80) * 0x40 + (e - 0x80)) / 0x1000 % 0x40 = c := by
    omega
  have e3 : 0x80 + ((b - 0xF0) * 0x40000 + (c - 0x80) * 0x1000 + (d - 0x80) * 0x40 + (e - 0x80)) / 0x40 % 0x40 = d := by
    omega
  have e4 : 0x80 + ((b - 0xF0) * 0x40000 + (c - 0x80) * 0x1000 + (d - 0x80) * 0x40 + (e - 0x80)) % 0x40 = e := by
    omega
  have g1 : ¬ (b - 0xF0) * 0x40000 + (c - 0x80) * 0x1000 + (d - 0x80) * 0x40 + (e - 0x80) < 0x80 := by
    omega
  have g2 : ¬ (b - 0xF0) * 0x40000 + (c - 0x80) * 0x1000 + (d - 0x80) * 0x40 + (e - 0x80) < 0x800 := by
    omega
  have g3 : ¬ (b - 0xF0) * 0x40000 + (c - 0x80) * 0x1000 + (d - 0x80) * 0x40 + (e - 0x80) < 0xD800 := by
    omega
  have g4 : ¬ (b - 0xF0) * 0x40000 + (c - 0x80) * 0x1000 + (d - 0x80) * 0x40 + (e - 0x80) < 0xDC80 := by
    omega
  have g5 : ¬ (b - 0xF0) * 0x40000 + (c - 0x80) * 0x1000 + (d - 0x80) * 0x40 + (e - 0x80) < 0xDD00 := by
    omega
  have g6 : ¬ (b - 0xF0) * 0x40000 + (c - 0x80) * 0x1000 + (d - 0x80) * 0x40 + (e - 0x80) < 0xE000 := by
    omega
  have g7 : ¬ (b - 0xF0) * 0x40000 + (c - 0x80) * 0x1000 + (d - 0x80) * 0x40 + (e - 0x80) < 0x10000 := by
    omega
  have g8 : (b - 0xF0) * 0x40000 + (c - 0x80) * 0x1000 + (d - 0x80) * 0x40 + (e - 0x80) < 0x110000 := by
    omega
  rw [if_neg g1, if_neg g2, if_neg g3, if_neg g4, if_neg g5, if_neg g6,
      if_neg g7, if_pos g8, e1, e2, e3, e4]

/-- Prepending an encodable code point to an encodable string. -/
theorem encodeSE_step (cp : Nat) (seq : List Nat) {l bs : List Nat}
    (h1 : encodeCp cp = some seq) (h2 : encodeSE l = some bs) :
    encodeSE (cp :: l) = some (seq ++ bs) := by
  rw [encodeSE_cons, h1, h2]

/-- Byte bound transported to the tail of a list. -/
theorem bytes_tail {b : Nat} {l : List Nat} (h : ∀ x ∈ b :: l, x < 0x100) :
    ∀ x ∈ l, x < 0x100 :=
  fun x hx => h x (List.mem_cons_of_mem _ hx)

/-- Byte bound at the head of a list. -/
theorem bytes_head {b : Nat} {l : List Nat} (h : ∀ x ∈ b :: l, x < 0x100) :
    b < 0x100 :=
  h b (List.mem_cons_self _ _)

/-- Encoding the empty string. -/
theorem encodeSE_nil : encodeSE [] = some [] := rfl

/-- Round-trip: surrogateescape-decoding any byte string and re-encoding it
with `'utf-8', 'surrogateescape'` recovers the original bytes, without
raising and without truncation.  This is the coercion-layer guarantee for
paths whose bytes are not valid in the default text encoding. -/
theorem encodeSE_decodeSE :
    ∀ bs : List Nat, (∀ x ∈ bs, x < 0x100) → encodeSE (decodeSE bs) = some bs := by
  intro bs
  induction bs using decodeSE.induct with
  | case1 => intro _; rfl
  | case2 b h1 =>
    intro h
    simp only [decodeSE]
    rw [if_pos h1, encodeSE_step b [b] (encodeCp_ascii b h1) encodeSE_nil]
    rfl
  | case3 b h1 =>
    intro h
    simp only [decodeSE]
    rw [if_neg h1,
        encodeSE_step _ [b] (encodeCp_esc b (by omega) (bytes_head h)) encodeSE_nil]
    rfl
  | case4 b c h1 ih =>
    intro h
    have hrest := ih (bytes_tail h)
    simp only [decodeSE] at hrest ⊢
    rw [if_pos h1, encodeSE_step b [b] (encodeCp_ascii b h1) hrest]
    rfl
  | case5 b c h1 h2 h3 =>
    intro h
    simp only [decodeSE]
    rw [if_neg h1, if_pos h2, if_pos h3,
        encodeSE_step _ [b, c] (encodeCp_two b c h2.1 h2.2 h3) encodeSE_nil]
    rfl
  | case6 b c h1 h2 h3 ih =>
    intro h
    have hrest := ih (bytes_tail h)
    simp only [decodeSE] at hrest ⊢
    rw [if_neg h1, if_pos h2, if_neg h3,
        encodeSE_step _ [b] (encodeCp_esc b (by omega) (bytes_head h)) hrest]
    rfl
  | case7 b c h1 h2 ih =>
    intro h
    have hrest := ih (bytes_tail h)
    simp only [decodeSE] at hrest ⊢
    rw [if_neg h1, if_neg h2,
        encodeSE_step _ [b] (encodeCp_esc b (by omega) (bytes_head h)) hrest]
    rfl
  | case8 b c d h1 ih =>
    intro h
    have hrest := ih (bytes_tail h)
    simp only [decodeSE] at hrest ⊢
    rw [if_pos h1, encodeSE_step b [b] (encodeCp_ascii b h1) hrest]
    rfl
  | case9 b c d h1 h2 h3 ih =>
    intro h
    have hrest := ih (bytes_tail (bytes_tail h))
    simp only [decodeSE] at hrest ⊢
    rw [if_neg h1, if_pos h2, if_pos h3,
        encodeSE_step _ [b, c] (encodeCp_two b c h2.1 h2.2 h3) hrest]
    rfl
  | case10 b c d h1 h2 h3 ih =>
    intro h
    have hrest := ih (bytes_tail h)
    simp only [decodeSE] at hrest ⊢
    rw [if_neg h1, if_pos h2, if_neg h3,
        encodeSE_step _ [b] (encodeCp_esc b (by omega) (bytes_head h)) hrest]
    rfl
  | case11 b c d h1 h2 h3 h4 =>
    intro h
    simp only [decodeSE]
    rw [if_neg h1, if_neg h2, if_pos h3, if_pos h4,
        encodeSE_step _ [b, c, d] (encodeCp_three b c d h3.1 h3.2 h4.1 h4.2)
          encodeSE_nil]
    rfl
  | case12 b c d h1 h2 h3 h4 ih =>
    intro h
    have hrest := ih (bytes_tail h)
    simp only [decodeSE] at hrest ⊢
    rw [if_neg h1, if_neg h2, if_pos h3, if_neg h4,
        encodeSE_step _ [b] (encodeCp_esc b (by omega) (bytes_head h)) hrest]
    rfl
  | case13 b c d h1 h2 h3 ih =>
    intro h
    have hrest := ih (bytes_tail h)
    simp only [decodeSE] at hrest ⊢
    rw [if_neg h1, if_neg h2, if_neg h3,
        encodeSE_step _ [b] (encodeCp_esc b (by omega) (bytes_head h)) hrest]
    rfl
  | case14 b c d e rest h1 ih =>
    intro h
    simp only [decodeSE]
    rw [if_pos h1, encodeSE_step b [b] (encodeCp_ascii b h1) (ih (bytes_tail h))]
    rfl
  | case15 b c d e rest h1 h2 h3 ih =>
    intro h
    simp only [decodeSE]
    rw [if_neg h1, if_pos h2, if_pos h3,
        encodeSE_step _ [b, c] (encodeCp_two b c h2.1 h2.2 h3)
          (ih (bytes_tail (bytes_tail h)))]
    rfl
  | case16 b c d e rest h1 h2 h3 ih =>
    intro h
    simp only [decodeSE]
    rw [if_neg h1, if_pos h2, if_neg h3,
        encodeSE_step _ [b] (encodeCp_esc b (by omega) (bytes_head h))
          (ih (bytes_tail h))]
    rfl
  | case17 b c d e rest h1 h2 h3 h4 ih =>
    intro h
    simp only [decodeSE]
    rw [if_neg h1, if_neg h2, if_pos h3, if_pos h4,
        encodeSE_step _ [b, c, d] (encodeCp_three b c d h3.1 h3.2 h4.1 h4.2)
          (ih (bytes_tail (bytes_tail (bytes_tail h))))]
    rfl
  | case18 b c d e rest h1 h2 h3 h4 ih =>
    intro h
    simp only [decodeSE]
    rw [if_neg h1, if_neg h2, if_pos h3, if_neg h4,
        encodeSE_step _ [b] (encodeCp_esc b (by omega) (bytes_head h))
          (ih (bytes_tail h))]
    rfl
  | case19 b c d e rest h1 h2 h3 h4 h5 ih =>
    intro h
    simp only [decodeSE]
    rw [if_neg h1, if_neg h2, if_neg h3, if_pos h4, if_pos h5,
        encodeSE_step _ [b, c, d, e]
          (encodeCp_four b c d e h4.1 h4.2 h5.1 h5.2.1 h5.2.2)
          (ih (bytes_tail (bytes_tail (bytes_tail (bytes_tail h)))))]
    rfl
  | case20 b c d e rest h1 h2 h3 h4 h5 ih =>
    intro h
    simp only [decodeSE]
    rw [if_neg h1, if_neg h2, if_neg h3, if_pos h4, if_neg h5,
        encodeSE_step _ [b] (encodeCp_esc b (by omega) (bytes_head h))
          (ih (bytes_tail h))]
    rfl
  | case21 b c d e rest h1 h2 h3 h4 ih =>
    intro h
    simp only [decodeSE]
    rw [if_neg h1, if_neg h2, if_neg h3, if_neg h4,
        encodeSE_step _ [b] (encodeCp_esc b (by omega) (bytes_head h))
          (ih (bytes_tail h))]
    rfl

/-- Code points that filesystem decoding can produce: anything below the
surrogate block, escape surrogates U+DC80..U+DCFF, or code points from
U+E000 up to U+10FFFF. -/
def fsSafe (cp : Nat) : Prop :=
  cp < 0xD800 ∨ (0xDC80 ≤ cp ∧ cp < 0xDD00) ∨ (0xE000 ≤ cp ∧ cp < 0x110000)

/-- Every filesystem-safe code point encodes. -/
theorem encodeCp_isSome (cp : Nat) (h : fsSafe cp) : (encodeCp cp).isSome := by
  unfold fsSafe at h
  unfold encodeCp
  split_ifs <;> first | rfl | (exfalso; omega)

/-- The encoder is total on strings of filesystem-safe code points: it
never raises. -/
theorem encodeSE_isSome :
    ∀ s : List Nat, (∀ cp ∈ s, fsSafe cp) → (encodeSE s).isSome := by
  intro s
  induction s with
  | nil => intro _; rfl
  | cons cp rest ih =>
    intro h
    have h1 := encodeCp_isSome cp (h cp (List.mem_cons_self _ _))
    have h2 := ih (fun x hx => h x (List.mem_cons_of_mem _ hx))
    obtain ⟨b, hb⟩ := Option.isSome_iff_exists.mp h1
    obtain ⟨bs, hbs⟩ := Option.isSome_iff_exists.mp h2
    rw [encodeSE_cons, hb, hbs]
    rfl

/-! ## Native Interface Layer (`MagicDLL`) -/

/-- ctypes type descriptors appearing in the `MagicDLL._methods` table. -/
inductive CType where
  | c_int
  | c_char_p
  | c_void_p
  | c_size_t
  | ptr_c_void_p
  | ptr_c_size_t
deriving DecidableEq

/-- `magic_t = ctypes.c_void_p`. -/
def magic_t : CType := CType.c_void_p

/-- One entry of the static spec table (`MagicDLLDefinition` in the
source, a `NamedTuple` with defaults `restype=None`, `argtypes=[]`);
`restype = Option.none` models ctypes' `None` (void) result. -/
structure MagicDLLDefinition where
  restype : Option CType := Option.none
  argtypes : List CType := []
deriving DecidableEq

/-- The static `MagicDLL._methods` table, entry for entry. -/
def MagicDLL_methods : List (String × MagicDLLDefinition) :=
  [("magic_open", { restype := some magic_t, argtypes := [CType.c_int] }),
   ("magic_close", { argtypes := [magic_t] }),
   ("magic_error", { restype := some CType.c_char_p, argtypes := [magic_t] }),
   ("magic_errno", { restype := some CType.c_int, argtypes := [magic_t] }),
   ("magic_descriptor",
     { restype := some CType.c_char_p, argtypes := [magic_t, CType.c_int] }),
   ("magic_file",
     { restype := some CType.c_char_p, argtypes := [magic_t, CType.c_char_p] }),
   ("magic_buffer",
     { restype := some CType.c_char_p,
       argtypes := [magic_t, CType.c_void_p, CType.c_size_t] }),
   ("magic_getflags", { restype := some CType.c_int, argtypes := [magic_t] }),
   ("magic_setflags",
     { restype := some CType.c_int, argtypes := [magic_t, CType.c_int] }),
   ("magic_check",
     { restype := some CType.c_int, argtypes := [magic_t, CType.c_char_p] }),
   ("magic_compile",
     { restype := some CType.c_int, argtypes := [magic_t, CType.c_char_p] }),
   ("magic_list",
     { restype := some CType.c_int, argtypes := [magic_t, CType.c_char_p] }),
   ("magic_load",
     { restype := some CType.c_int, argtypes := [magic_t, CType.c_char_p] }),
   ("magic_load_buffers",
     { restype := some CType.c_int,
       argtypes := [magic_t, CType.ptr_c_void_p, CType.ptr_c_size_t,
                    CType.c_size_t] }),
   ("magic_getparam",
     { restype := some CType.c_int,
       argtypes := [magic_t, CType.c_int, CType.ptr_c_size_t] }),
   ("magic_setparam",
     { restype := some CType.c_int,
       argtypes := [magic_t, CType.c_int, CType.ptr_c_size_t] }),
   ("magic_version", { restype := some CType.c_int })]

/-- Dictionary lookup `self._methods[item]` (as an `Option`). -/
def lookupMethod (item : String) : Option MagicDLLDefinition :=
  (MagicDLL_methods.find? (fun p => p.1 == item)).map Prod.snd

/-- A resolved native entry point: the callable returned by
`MagicDLL.__getattr__` with its `restype`/`argtypes` marshaling applied. -/
structure BoundMethod where
  name : String
  restype : Option CType
  argtypes : List CType
deriving DecidableEq

/-- Outcome of `MagicDLL.__getattr__`. -/
inductive GetattrResult where
  | ok (m : BoundMethod)
  | attributeError (item : String)
  | notImplementedError (item : String)
deriving DecidableEq

/-- The string the source tests with `item.startswith(...)`. -/
def magicPfx : String := "magic_"

/-- Python's `str.startswith`, on the character lists of the strings. -/
def pyStartsWith (s pre : String) : Bool := pre.data.isPrefixOf s.data

/-- Embedding of `MagicDLL.__getattr__`: `item` not starting with
`magic_` or absent from the `_methods` table raises `AttributeError`;
present in the table but not exported by the loaded library
(`exported` is the set of symbols `hasattr(self.libmagic, item)` finds)
raises `NotImplementedError`; otherwise the bound method is returned with
the table's `restype` and `argtypes` assigned.  (The final `none` arm is
unreachable: the guard already ensured the table lookup succeeds.) -/
def MagicDLL_getattr (exported : List String) (item : String) : GetattrResult :=
  if ¬ pyStartsWith item magicPfx ∨ lookupMethod item = Option.none then
    GetattrResult.attributeError item
  else if item ∉ exported then
    GetattrResult.notImplementedError item
  else
    match lookupMethod item with
    | some d =>
      GetattrResult.ok { name := item, restype := d.restype, argtypes := d.argtypes }
    | Option.none => GetattrResult.attributeError item

/-- Every key of the static table starts with `magic_`. -/
theorem methods_key_magicPfx (p : String × MagicDLLDefinition)
    (hp : p ∈ MagicDLL_methods) : pyStartsWith p.1 magicPfx = true := by
  fin_cases hp <;> decide

/-- A successful table lookup implies the `startswith` guard passes. -/
theorem lookupMethod_startsWith (item : String) (d : MagicDLLDefinition)
    (h : lookupMethod item = some d) :
    pyStartsWith item magicPfx = true := by
  unfold lookupMethod at h
  cases hf : MagicDLL_methods.find? (fun q => q.1 == item) with
  | none => rw [hf] at h; simp at h
  | some q =>
    rw [hf] at h
    have hmem := List.mem_of_find?_eq_some hf
    have hpred := List.find?_some hf
    have heq : q.1 = item := by simpa using hpred
    rw [← heq]
    exact methods_key_magicPfx q hmem

/-! ## Session Wrapper (`Magic`)

The native library is an external dependency (not part of this
repository).  Its per-call behaviour is modelled from the spec's
external-interface contract (spec section 6): every per-session call takes
the cookie; `magic_error`/`magic_errno` return the message/code of the
most recent failing call on that cookie; `magic_setflags` installs the
flags on success; detection calls return a pointer into the session's
internal result buffer, which ctypes' `c_char_p` result marshaling copies
into a fresh Python `bytes` object.  Outcomes the model cannot determine
(whether a call fails, what a detection returns, the diagnostic text) are
supplied by an `Oracle`. -/

/-- Names of the native entry points, used in event traces. -/
inductive FName where
  | magic_open | magic_close | magic_error | magic_errno
  | magic_descriptor | magic_file | magic_buffer
  | magic_getflags | magic_setflags
  | magic_check | magic_compile | magic_list | magic_load
  | magic_getparam | magic_setparam | magic_version
deriving DecidableEq

/-- Observable events of one wrapper operation: acquiring/releasing the
session lock, and a native call, tagged with whether the call receives the
session cookie as an argument. -/
inductive Event where
  | acquire
  | release
  | call (name : FName) (onCookie : Bool)
deriving DecidableEq

/-- Modelled from the spec (section 6): the per-cookie native session
state — the flags installed by `magic_setflags`, the message and code
reported by `magic_error`/`magic_errno` after the most recent failing
call, and the internal result buffer detection results point into. -/
structure NativeState where
  nflags : Int
  errMsg : Option (List Nat)
  nerrno : Int
  buffer : List Nat
deriving DecidableEq

/-- External outcomes of native calls: `detect` is what a detection call
returns (`none` = NULL pointer), `ret` the return value of an
`int`-returning call (`-1` = failure sentinel), `failMsg`/`failErrno`
the diagnostic state the native layer installs on a failing call, and
`paramVal` the value `magic_getparam` writes through its out-pointer. -/
structure Oracle where
  detect : Option (List Nat)
  ret : Int
  failMsg : Option (List Nat)
  failErrno : Int
  paramVal : Int
deriving DecidableEq

/-- State of one `Magic` instance: whether `self.dll` is set (a truthy
`MagicDLL` object), the cached `self.flags`, the cookie (`Option.none`
models both a NULL `c_void_p` result, which ctypes converts to Python
`None`, and an absent/cleared attribute) and the cookie's native session
state. -/
structure MagicState where
  dll : Bool
  flags : Int
  cookie : Option Int
  native : NativeState
deriving DecidableEq

/-- The `magic_error`/`magic_errno` calls `Magic._check_error` performs
when (and only when) `result == error_value`. -/
def errEvents (result errorValue : PyValue) : List Event :=
  if result = errorValue then
    [Event.call FName.magic_error true, Event.call FName.magic_errno true]
  else []

/-- Embedding of `Magic._check_error`: on the sentinel it reads the native
error message and code from the same cookie and raises
`MagicException(message, errno)`; otherwise it does nothing. -/
def check_error (st : MagicState) (result errorValue : PyValue) :
    Except PyError Unit :=
  if result = errorValue then
    Except.error (PyError.magicException st.native.errMsg st.native.nerrno)
  else Except.ok ()

/-- Modelled from the spec (section 6): a detection call
(`magic_descriptor` / `magic_file` / `magic_buffer`).  On success the
native session stores the result in its internal buffer and returns a
pointer to it, which the `c_char_p` result marshaling copies into a fresh
caller-owned `bytes` value; on failure it returns NULL (marshalled to
Python `None`) and installs the failure diagnostics. -/
def nativeDetect (nst : NativeState) (o : Oracle) : PyValue × NativeState :=
  match o.detect with
  | some bs => (PyValue.bytes bs, { nst with buffer := bs })
  | Option.none =>
    (PyValue.none, { nst with errMsg := o.failMsg, nerrno := o.failErrno })

/-- Modelled from the spec (section 6): an `int`-returning native call
(`magic_check`/`magic_compile`/`magic_list`/`magic_load`/
`magic_getparam`/`magic_setparam`); `-1` installs the failure
diagnostics. -/
def nativeIntOp (nst : NativeState) (o : Oracle) : Int × NativeState :=
  if o.ret = -1 then
    (-1, { nst with errMsg := o.failMsg, nerrno := o.failErrno })
  else (o.ret, nst)

/-- Modelled from the spec (section 6): `magic_setflags` additionally
installs the requested flags in the native session on success. -/
def nativeSetflags (nst : NativeState) (o : Oracle) (f : Int) : Int × NativeState :=
  if o.ret = -1 then
    (-1, { nst with errMsg := o.failMsg, nerrno := o.failErrno })
  else (o.ret, { nst with nflags := f })

/-- Common shape of `Magic.from_descriptor` / `from_file` / `from_buffer`
once inside the `with self.lock:` block: invoke the detection call, run
`self._check_error(result)` (sentinel `None`), return the result.  The
lock is released on both the return and the raise path (the `with`
statement guarantees it). -/
def detectOp (name : FName) (st : MagicState) (o : Oracle) :
    Except PyError PyValue × MagicState × List Event :=
  let r := nativeDetect st.native o
  let st1 := { st with native := r.2 }
  let tr := Event.acquire :: Event.call name true ::
    (errEvents r.1 PyValue.none ++ [Event.release])
  match check_error st1 r.1 PyValue.none with
  | Except.error e => (Except.error e, st1, tr)
  | Except.ok _ => (Except.ok r.1, st1, tr)

/-- Embedding of `Magic.from_descriptor`. -/
def Magic_from_descriptor (st : MagicState) (o : Oracle) (_fd : Int) :
    Except PyError PyValue × MagicState × List Event :=
  detectOp FName.magic_descriptor st o

/-- Embedding of `Magic.from_file`: the lock is acquired first; the
argument expression `coerce_filename(filename)` is evaluated inside the
`with` block, so a coercion error releases the lock and propagates with no
native call made. -/
def Magic_from_file (st : MagicState) (o : Oracle) (filename : PyValue) :
    Except PyError PyValue × MagicState × List Event :=
  match coerce_filename filename with
  | Except.error e => (Except.error e, st, [Event.acquire, Event.release])
  | Except.ok _ => detectOp FName.magic_file st o

/-- Embedding of `Magic.from_buffer`: a non-`bytes` argument raises
`TypeError` before the lock is taken and before any native call. -/
def Magic_from_buffer (st : MagicState) (o : Oracle) (buffer : PyValue) :
    Except PyError PyValue × MagicState × List Event :=
  match buffer with
  | PyValue.bytes _ => detectOp FName.magic_buffer st o
  | v => (Except.error (PyError.typeError (typeNameOf v)), st, [])

/-- Embedding of `Magic.get_flags`: returns `magic_getflags(cookie)`
directly (no error check in the source). -/
def Magic_get_flags (st : MagicState) :
    Except PyError PyValue × MagicState × List Event :=
  (Except.ok (PyValue.int st.native.nflags), st,
   [Event.acquire, Event.call FName.magic_getflags true, Event.release])

/-- Embedding of `Magic.set_flags`: `magic_setflags`, `_check_error` with
sentinel `-1`, and only then `self.flags = flags`. -/
def Magic_set_flags (st : MagicState) (o : Oracle) (f : Int) :
    Except PyError PyValue × MagicState × List Event :=
  let r := nativeSetflags st.native o f
  let st1 := { st with native := r.2 }
  let tr := Event.acquire :: Event.call FName.magic_setflags true ::
    (errEvents (PyValue.int r.1) (PyValue.int (-1)) ++ [Event.release])
  match check_error st1 (PyValue.int r.1) (PyValue.int (-1)) with
  | Except.error e => (Except.error e, st1, tr)
  | Except.ok _ => (Except.ok PyValue.none, { st1 with flags := f }, tr)

/-- Common shape of `Magic.check` / `compile` / `list` / `load`: inside
the lock, call the native function on `coerce_filename(database_filename)`
and `_check_error` with sentinel `-1`. -/
def dbOp (name : FName) (st : MagicState) (o : Oracle) (db : PyValue) :
    Except PyError PyValue × MagicState × List Event :=
  match coerce_filename db with
  | Except.error e => (Except.error e, st, [Event.acquire, Event.release])
  | Except.ok _ =>
    let r := nativeIntOp st.native o
    let st1 := { st with native := r.2 }
    let tr := Event.acquire :: Event.call name true ::
      (errEvents (PyValue.int r.1) (PyValue.int (-1)) ++ [Event.release])
    match check_error st1 (PyValue.int r.1) (PyValue.int (-1)) with
    | Except.error e => (Except.error e, st1, tr)
    | Except.ok _ => (Except.ok PyValue.none, st1, tr)

/-- Embedding of `Magic.check`. -/
def Magic_check (st : MagicState) (o : Oracle) (db : PyValue) :
    Except PyError PyValue × MagicState × List Event :=
  dbOp FName.magic_check st o db

/-- Embedding of `Magic.compile`. -/
def Magic_compile (st : MagicState) (o : Oracle) (db : PyValue) :
    Except PyError PyValue × MagicState × List Event :=
  dbOp FName.magic_compile st o db

/-- Embedding of `Magic.list`. -/
def Magic_list (st : MagicState) (o : Oracle) (db : PyValue) :
    Except PyError PyValue × MagicState × List Event :=
  dbOp FName.magic_list st o db

/-- Embedding of `Magic.load`. -/
def Magic_load (st : MagicState) (o : Oracle) (db : PyValue) :
    Except PyError PyValue × MagicState × List Event :=
  dbOp FName.magic_load st o db

/-- Embedding of `Magic.get_param`: on success returns the value the
native call wrote through the `c_size_t` out-pointer. -/
def Magic_get_param (st : MagicState) (o : Oracle) (_param : Int) :
    Except PyError PyValue × MagicState × List Event :=
  let r := nativeIntOp st.native o
  let st1 := { st with native := r.2 }
  let tr := Event.acquire :: Event.call FName.magic_getparam true ::
    (errEvents (PyValue.int r.1) (PyValue.int (-1)) ++ [Event.release])
  match check_error st1 (PyValue.int r.1) (PyValue.int (-1)) with
  | Except.error e => (Except.error e, st1, tr)
  | Except.ok _ => (Except.ok (PyValue.int o.paramVal), st1, tr)

/-- Embedding of `Magic.set_param`. -/
def Magic_set_param (st : MagicState) (o : Oracle) (_param _value : Int) :
    Except PyError PyValue × MagicState × List Event :=
  let r := nativeIntOp st.native o
  let st1 := { st with native := r.2 }
  let tr := Event.acquire :: Event.call FName.magic_setparam true ::
    (errEvents (PyValue.int r.1) (PyValue.int (-1)) ++ [Event.release])
  match check_error st1 (PyValue.int r.1) (PyValue.int (-1)) with
  | Except.error e => (Except.error e, st1, tr)
  | Except.ok _ => (Except.ok PyValue.none, st1, tr)

/-- Embedding of `Magic.get_version`: calls `magic_version` (which takes
no cookie) without taking the lock. -/
def Magic_get_version (st : MagicState) (o : Oracle) :
    Except PyError PyValue × MagicState × List Event :=
  (Except.ok (PyValue.int o.ret), st, [Event.call FName.magic_version false])

/-- Embedding of `Magic.__del__`: `magic_close(cookie)` is called (without
taking the lock) only when both `self.dll` and `self.cookie` are present
and truthy, and the cookie is then set to `None`. -/
def Magic_del (st : MagicState) : MagicState × List Event :=
  if st.dll = true ∧ st.cookie.isSome then
    ({ st with cookie := Option.none }, [Event.call FName.magic_close true])
  else (st, [])

/-- Embedding of `Magic.__init__`: sets `self.dll`, `self.flags = flags`,
`self.cookie = magic_open(flags)` — the return value is stored without
any check — then calls `self.load(database_filename)`, whose
`MagicException` (if the load fails) propagates out of the
constructor. -/
def Magic_init (o : Oracle) (flags : Int) (database_filename : PyValue)
    (openResult : Option Int) (nst : NativeState) :
    Except PyError MagicState × List Event :=
  let st0 : MagicState :=
    { dll := true, flags := flags, cookie := openResult, native := nst }
  let r := Magic_load st0 o database_filename
  match r.1 with
  | Except.error e => (Except.error e, Event.call FName.magic_open false :: r.2.2)
  | Except.ok _ => (Except.ok r.2.1, Event.call FName.magic_open false :: r.2.2)

/-- The public detection/configuration operations of a live `Magic`
session, for theorems quantifying over all of them. -/
inductive MOp where
  | fromDescriptor (fd : Int)
  | fromFile (filename : PyValue)
  | fromBuffer (buffer : PyValue)
  | getFlags
  | setFlags (f : Int)
  | checkDb (db : PyValue)
  | compileDb (db : PyValue)
  | listDb (db : PyValue)
  | loadDb (db : PyValue)
  | getParam (p : Int)
  | setParam (p : Int) (v : Int)
  | getVersion
deriving DecidableEq

/-- Dispatch an operation to its embedding. -/
def runOp (st : MagicState) (o : Oracle) :
    MOp → Except PyError PyValue × MagicState × List Event
  | MOp.fromDescriptor fd => Magic_from_descriptor st o fd
  | MOp.fromFile filename => Magic_from_file st o filename
  | MOp.fromBuffer buffer => Magic_from_buffer st o buffer
  | MOp.getFlags => Magic_get_flags st
  | MOp.setFlags f => Magic_set_flags st o f
  | MOp.checkDb db => Magic_check st o db
  | MOp.compileDb db => Magic_compile st o db
  | MOp.listDb db => Magic_list st o db
  | MOp.loadDb db => Magic_load st o db
  | MOp.getParam p => Magic_get_param st o p
  | MOp.setParam p v => Magic_set_param st o p v
  | MOp.getVersion => Magic_get_version st o

/-- Lock discipline checker: scanning a trace with the lock-held flag,
every native call that takes the cookie must happen while the lock is
held, the (non-reentrant) lock is never re-acquired while held nor
released while free, and the lock is free again at the end. -/
def lockedOk : Bool → List Event → Bool
  | false, [] => true
  | true, [] => false
  | false, Event.acquire :: tr => lockedOk true tr
  | true, Event.acquire :: _ => false
  | true, Event.release :: tr => lockedOk false tr
  | false, Event.release :: _ => false
  | held, Event.call _ onCookie :: tr => (!onCookie || held) && lockedOk held tr

/-- Names of the cookie-taking native calls made while the lock is
held. -/
def callsHeld : Bool → List Event → List FName
  | _, [] => []
  | _, Event.acquire :: tr => callsHeld true tr
  | _, Event.release :: tr => callsHeld false tr
  | held, Event.call n onCookie :: tr =>
    if held ∧ onCookie then n :: callsHeld held tr else callsHeld held tr

/-- Number of `magic_close(cookie)` calls in a trace. -/
def closeCount (tr : List Event) : Nat :=
  tr.countP (fun e => e = Event.call FName.magic_close true)

/-- A convenient concrete native-session state. -/
def nst0 : NativeState :=
  { nflags := 0, errMsg := Option.none, nerrno := 0, buffer := [] }

/-- A concrete oracle whose calls all succeed, detection returning the
bytes of `"PDF document"`-style output for the `%PDF` buffer check. -/
def oDet : Oracle :=
  { detect := some [80, 68, 70], ret := 0, failMsg := Option.none,
    failErrno := 0, paramVal := 0 }

/-- A concrete oracle whose int-returning calls fail with sentinel `-1`,
reporting message bytes `[101, 114, 114]` (`"err"`) and code `22`. -/
def oFail : Oracle :=
  { detect := Option.none, ret := -1, failMsg := some [101, 114, 114],
    failErrno := 22, paramVal := 0 }

/-- A concrete live session state. -/
def stLive : MagicState :=
  { dll := true, flags := 0, cookie := some 1, native := nst0 }

example : (Magic_set_flags stLive oDet 5).1 = Except.ok PyValue.none := rfl

example : (Magic_set_flags stLive oFail 5).1 =
    Except.error (PyError.magicException (some [101, 114, 114]) 22) := rfl

example : (Magic_set_flags stLive oFail 5).2.1.flags = 0 := rfl

example : lockedOk false (Magic_set_flags stLive oFail 5).2.2 = true := rfl

example : (Magic_del stLive).2 = [Event.call FName.magic_close true] := rfl

example : (Magic_del (Magic_del stLive).1).2 = [] := rfl

/-! ### Helper lemmas about traces and error paths -/

/-- Lock discipline holds on the standard critical-section trace. -/
theorem lockedOk_std (name : FName) (a b : PyValue) :
    lockedOk false (Event.acquire :: Event.call name true ::
      (errEvents a b ++ [Event.release])) = true := by
  unfold errEvents
  split <;> rfl

/-- Lock discipline holds on the bare acquire/release trace. -/
theorem lockedOk_bare : lockedOk false [Event.acquire, Event.release] = true := rfl

/-- Lock discipline on `detectOp` traces. -/
theorem detectOp_lockedOk (name : FName) (st : MagicState) (o : Oracle) :
    lockedOk false (detectOp name st o).2.2 = true := by
  simp only [detectOp]
  split <;> exact lockedOk_std name _ _

/-- Lock discipline on `dbOp` traces. -/
theorem dbOp_lockedOk (name : FName) (st : MagicState) (o : Oracle) (db : PyValue) :
    lockedOk false (dbOp name st o db).2.2 = true := by
  simp only [dbOp]
  split
  · exact lockedOk_bare
  · split <;> exact lockedOk_std name _ _

/-- Lock discipline on `Magic_set_flags` traces. -/
theorem set_flags_lockedOk (st : MagicState) (o : Oracle) (f : Int) :
    lockedOk false (Magic_set_flags st o f).2.2 = true := by
  simp only [Magic_set_flags]
  split <;> exact lockedOk_std _ _ _

/-- Lock discipline on `Magic_get_param` traces. -/
theorem get_param_lockedOk (st : MagicState) (o : Oracle) (p : Int) :
    lockedOk false (Magic_get_param st o p).2.2 = true := by
  simp only [Magic_get_param]
  split <;> exact lockedOk_std _ _ _

/-- Lock discipline on `Magic_set_param` traces. -/
theorem set_param_lockedOk (st : MagicState) (o : Oracle) (p v : Int) :
    lockedOk false (Magic_set_param st o p v).2.2 = true := by
  simp only [Magic_set_param]
  split <;> exact lockedOk_std _ _ _

/-- `coerce_filename` can only raise `UnicodeEncodeError`. -/
theorem coerce_filename_err (db : PyValue) (e2 : PyError)
    (h : coerce_filename db = Except.error e2) :
    e2 = PyError.unicodeEncodeError := by
  cases db with
  | str s =>
    simp only [coerce_filename] at h
    cases he : encodeSE s with
    | some bs => rw [he] at h; simp at h
    | none => rw [he] at h; simp at h; exact h.symm
  | none => simp [coerce_filename] at h
  | bool b => simp [coerce_filename] at h
  | int n => simp [coerce_filename] at h
  | bytes b => simp [coerce_filename] at h

/-- Error path of `detectOp`: a raised `MagicException` carries the
oracle's failure message and code, and the error/errno queries happened
under the lock. -/
theorem detectOp_err (name : FName) (st : MagicState) (o : Oracle)
    (m : Option (List Nat)) (e : Int) (st' : MagicState) (tr : List Event)
    (h : detectOp name st o = (Except.error (PyError.magicException m e), st', tr)) :
    m = o.failMsg ∧ e = o.failErrno ∧
      FName.magic_error ∈ callsHeld false tr ∧
      FName.magic_errno ∈ callsHeld false tr := by
  cases hd : o.detect with
  | some bs =>
    simp only [detectOp, nativeDetect, hd, check_error, errEvents] at h
    simp at h
  | none =>
    simp only [detectOp, nativeDetect, hd, check_error, errEvents] at h
    simp at h
    obtain ⟨⟨hm, he⟩, _, htr⟩ := h
    subst htr
    refine ⟨hm.symm, he.symm, ?_, ?_⟩ <;> simp [callsHeld]

/-- Error path of `Magic_set_flags`. -/
theorem set_flags_err (st : MagicState) (o : Oracle) (f : Int)
    (m : Option (List Nat)) (e : Int) (st' : MagicState) (tr : List Event)
    (h : Magic_set_flags st o f = (Except.error (PyError.magicException m e), st', tr)) :
    m = o.failMsg ∧ e = o.failErrno ∧
      FName.magic_error ∈ callsHeld false tr ∧
      FName.magic_errno ∈ callsHeld false tr := by
  by_cases hr : o.ret = -1
  · simp only [Magic_set_flags, nativeSetflags, if_pos hr, check_error, errEvents] at h
    simp at h
    obtain ⟨⟨hm, he⟩, _, htr⟩ := h
    subst htr
    refine ⟨hm.symm, he.symm, ?_, ?_⟩ <;> simp [callsHeld]
  · simp only [Magic_set_flags, nativeSetflags, if_neg hr, check_error, errEvents] at h
    simp [hr] at h

/-- Error path of `dbOp`. -/
theorem dbOp_err (name : FName) (st : MagicState) (o : Oracle) (db : PyValue)
    (m : Option (List Nat)) (e : Int) (st' : MagicState) (tr : List Event)
    (h : dbOp name st o db = (Except.error (PyError.magicException m e), st', tr)) :
    m = o.failMsg ∧ e = o.failErrno ∧
      FName.magic_error ∈ callsHeld false tr ∧
      FName.magic_errno ∈ callsHeld false tr := by
  cases hc : coerce_filename db with
  | error e2 =>
    simp only [dbOp, hc] at h
    simp at h
    rw [coerce_filename_err db e2 hc] at h
    simp at h
  | ok bv =>
    by_cases hr : o.ret = -1
    · simp only [dbOp, hc, nativeIntOp, if_pos hr, check_error, errEvents] at h
      simp at h
      obtain ⟨⟨hm, he⟩, _, htr⟩ := h
      subst htr
      refine ⟨hm.symm, he.symm, ?_, ?_⟩ <;> simp [callsHeld]
    · simp only [dbOp, hc, nativeIntOp, if_neg hr, check_error, errEvents] at h
      simp [hr] at h

/-- Error path of `Magic_get_param`. -/
theorem get_param_err (st : MagicState) (o : Oracle) (p : Int)
    (m : Option (List Nat)) (e : Int) (st' : MagicState) (tr : List Event)
    (h : Magic_get_param st o p = (Except.error (PyError.magicException m e), st', tr)) :
    m = o.failMsg ∧ e = o.failErrno ∧
      FName.magic_error ∈ callsHeld false tr ∧
      FName.magic_errno ∈ callsHeld false tr := by
  by_cases hr : o.ret = -1
  · simp only [Magic_get_param, nativeIntOp, if_pos hr, check_error, errEvents] at h
    simp at h
    obtain ⟨⟨hm, he⟩, _, htr⟩ := h
    subst htr
    refine ⟨hm.symm, he.symm, ?_, ?_⟩ <;> simp [callsHeld]
  · simp only [Magic_get_param, nativeIntOp, if_neg hr, check_error, errEvents] at h
    simp [hr] at h

/-- Error path of `Magic_set_param`. -/
theorem set_param_err (st : MagicState) (o : Oracle) (p v : Int)
    (m : Option (List Nat)) (e : Int) (st' : MagicState) (tr : List Event)
    (h : Magic_set_param st o p v = (Except.error (PyError.magicException m e), st', tr)) :
    m = o.failMsg ∧ e = o.failErrno ∧
      FName.magic_error ∈ callsHeld false tr ∧
      FName.magic_errno ∈ callsHeld false tr := by
  by_cases hr : o.ret = -1
  · simp only [Magic_set_param, nativeIntOp, if_pos hr, check_error, errEvents] at h
    simp at h
    obtain ⟨⟨hm, he⟩, _, htr⟩ := h
    subst htr
    refine ⟨hm.symm, he.symm, ?_, ?_⟩ <;> simp [callsHeld]
  · simp only [Magic_set_param, nativeIntOp, if_neg hr, check_error, errEvents] at h
    simp [hr] at h

/-- Success path of `detectOp`: the returned value is the `bytes` copy the
`c_char_p` marshaling made of the native result buffer, and the marshaling
call happened while the lock was held. -/
theorem detectOp_ok (name : FName) (st : MagicState) (o : Oracle) (r : List Nat)
    (h : o.detect = some r) :
    (detectOp name st o).1 = Except.ok (PyValue.bytes r) ∧
      (detectOp name st o).2.1.native.buffer = r ∧
      name ∈ callsHeld false (detectOp name st o).2.2 := by
  simp only [detectOp, nativeDetect, h, check_error, errEvents]
  simp [callsHeld]

/-- The state left behind by `Magic_del` on the concrete live session. -/
def stClosed : MagicState := (Magic_del stLive).1

/-- C3: for every input value that is not a raw byte buffer,
`Magic.from_buffer` raises `TypeError` before any native function is
invoked — the event trace is empty (zero native calls, lock never taken)
and the session state is returned untouched. -/
theorem C3_from_buffer_rejects_nonbytes :
    ∀ (st : MagicState) (o : Oracle) (v : PyValue), PyValue.isBytes v = false →
      Magic_from_buffer st o v =
        (Except.error (PyError.typeError (typeNameOf v)), st, []) := by
  intro st o v h
  cases v <;> simp_all [Magic_from_buffer, PyValue.isBytes]

/-- Witness for C3 at a concrete text input. -/
theorem C3_from_buffer_rejects_nonbytes_witness :
    Magic_from_buffer stLive oDet (PyValue.str [104, 105]) =
      (Except.error (PyError.typeError (typeNameOf (PyValue.str [104, 105]))),
       stLive, []) :=
  C3_from_buffer_rejects_nonbytes stLive oDet (PyValue.str [104, 105]) rfl

/-- C10: the finalizer releases the native handle at most once — it calls
`magic_close` only when both `self.dll` and a truthy (non-`None`) cookie
are present, nulls the cookie afterwards, and therefore a second run (or a
run on a partially constructed session with no cookie) makes no close
call. -/
theorem C10_finalizer_releases_at_most_once :
    ∀ st : MagicState,
      closeCount (Magic_del st).2 +
        closeCount (Magic_del (Magic_del st).1).2 ≤ 1 ∧
      (st.cookie = Option.none → Magic_del st = (st, [])) ∧
      (st.dll = false → Magic_del st = (st, [])) ∧
      (st.dll = true → st.cookie.isSome = true →
        Magic_del st = ({ st with cookie := Option.none },
          [Event.call FName.magic_close true]) ∧
        (Magic_del st).1.cookie = Option.none) := by
  intro st
  by_cases hfire : st.dll = true ∧ st.cookie.isSome = true
  · obtain ⟨h1, h2⟩ := hfire
    refine ⟨?_, ?_, ?_, ?_⟩
    · simp [Magic_del, h1, h2, closeCount]
    · intro hc; rw [hc] at h2; simp at h2
    · intro hd; rw [hd] at h1; simp at h1
    · intro _ _; simp [Magic_del, h1, h2]
  · have hskip : Magic_del st = (st, []) := by
      unfold Magic_del
      rw [if_neg hfire]
    refine ⟨?_, fun _ => hskip, fun _ => hskip, ?_⟩
    · rw [hskip]
      simp [hskip, closeCount]
    · intro h1 h2; exact absurd ⟨h1, h2⟩ hfire

/-- Witness for C10 at the concrete live session. -/
theorem C10_finalizer_releases_at_most_once_witness :
    Magic_del stLive = ({ stLive with cookie := Option.none },
      [Event.call FName.magic_close true]) ∧
    (Magic_del stLive).1.cookie = Option.none :=
  (C10_finalizer_releases_at_most_once stLive).2.2.2 rfl rfl

/-- C1 (amended): the finalizer is idempotent — a second run is a no-op
and raises nothing — but there is no `Open -> Closed` guard on the
operations: a detection/configuration method called after the cookie has
been cleared still performs its native call (on the now-null cookie)
instead of failing with a `SessionClosed`-style error (no such error
exists in the source). -/
theorem C1_close_state_machine :
    (∀ st : MagicState, Magic_del (Magic_del st).1 = ((Magic_del st).1, [])) ∧
    (∀ (st : MagicState) (o : Oracle) (f : Int), st.cookie = Option.none →
      Event.call FName.magic_setflags true ∈ (runOp st o (MOp.setFlags f)).2.2) := by
  constructor
  · intro st
    by_cases hfire : st.dll = true ∧ st.cookie.isSome = true
    · obtain ⟨h1, h2⟩ := hfire
      simp [Magic_del, h1, h2]
    · have hskip : Magic_del st = (st, []) := by
        unfold Magic_del
        rw [if_neg hfire]
      rw [hskip, hskip]
  · intro st o f _
    simp only [runOp, Magic_set_flags]
    split <;> simp

/-- Witness for C1 at the concrete closed session. -/
theorem C1_close_state_machine_witness :
    Event.call FName.magic_setflags true ∈
      (runOp stClosed oDet (MOp.setFlags 5)).2.2 :=
  C1_close_state_machine.2 stClosed oDet 5 rfl

/-- C1 counterexample: on the session whose finalizer has run (cookie
cleared), `set_flags` still succeeds and its trace contains the native
`magic_setflags` call — the operation invokes native code on the stale
handle instead of failing with `SessionClosed`. -/
theorem C1_ops_after_close_call_native :
    (runOp stClosed oDet (MOp.setFlags 5)).1 = Except.ok PyValue.none ∧
    Event.call FName.magic_setflags true ∈
      (runOp stClosed oDet (MOp.setFlags 5)).2.2 := by
  refine ⟨rfl, ?_⟩
  decide

/-- C2 (amended): the constructor performs no check on the native open
result — it stores the returned handle (null included) as the cookie and
proceeds to the database load; construction fails only if that load
returns the `-1` sentinel, raising `MagicException` (there is no
`OpenFailed`). -/
theorem C2_open_unchecked :
    ∀ (o : Oracle) (flags : Int) (db : PyValue) (openRes : Option Int)
      (nst : NativeState) (bv : PyValue), coerce_filename db = Except.ok bv →
      (o.ret ≠ -1 →
        (Magic_init o flags db openRes nst).1 =
          Except.ok { dll := true, flags := flags, cookie := openRes,
                      native := nst }) ∧
      (o.ret = -1 →
        (Magic_init o flags db openRes nst).1 =
          Except.error (PyError.magicException o.failMsg o.failErrno)) := by
  intro o flags db openRes nst bv hdb
  constructor
  · intro hr
    simp [Magic_init, Magic_load, dbOp, hdb, nativeIntOp, hr, check_error,
          errEvents]
  · intro hr
    simp [Magic_init, Magic_load, dbOp, hdb, nativeIntOp, hr, check_error,
          errEvents]

/-- Witness for C2: a successful construction with a non-null handle. -/
theorem C2_open_unchecked_witness :
    (Magic_init oDet 3 PyValue.none (some 7) nst0).1 =
      Except.ok { dll := true, flags := 3, cookie := some 7, native := nst0 } :=
  (C2_open_unchecked oDet 3 PyValue.none (some 7) nst0 PyValue.none rfl).1
    (by decide)

/-- C2 counterexample: when the native open call returns NULL (cookie
`None`), the constructor still succeeds and hands back a live session
object with a null cookie — it does not fail with an `OpenFailed`-style
error. -/
theorem C2_null_open_constructs_session :
    Magic_init oDet 0 PyValue.none Option.none nst0 =
      (Except.ok { dll := true, flags := 0, cookie := Option.none,
                   native := nst0 },
       [Event.call FName.magic_open false, Event.acquire,
        Event.call FName.magic_load true, Event.release]) := rfl

/-- C4: if the native `magic_setflags` call returns the `-1` sentinel,
`set_flags(f)` raises the structured error (the source's single
`MagicException` class, carrying the native message and code — the
realization of the spec's `InvalidFlags`) and the cached `flags`
attribute is unchanged; if it succeeds, the cached `flags` becomes `f` and
a subsequent `get_flags()` (which queries the native session) returns
`f`. -/
theorem C4_set_flags_roundtrip :
    ∀ (st : MagicState) (o o2 : Oracle) (f : Int),
      (o.ret = -1 →
        (runOp st o (MOp.setFlags f)).1 =
          Except.error (PyError.magicException o.failMsg o.failErrno) ∧
        (runOp st o (MOp.setFlags f)).2.1.flags = st.flags) ∧
      (o.ret ≠ -1 →
        (runOp st o (MOp.setFlags f)).2.1.flags = f ∧
        (runOp ((runOp st o (MOp.setFlags f)).2.1) o2 MOp.getFlags).1 =
          Except.ok (PyValue.int f)) := by
  intro st o o2 f
  constructor
  · intro hr
    simp [runOp, Magic_set_flags, nativeSetflags, hr, check_error, errEvents]
  · intro hr
    simp [runOp, Magic_set_flags, Magic_get_flags, nativeSetflags, hr,
          check_error, errEvents]

/-- Witness for C4: a failing and a successful `set_flags` on the
concrete session. -/
theorem C4_set_flags_roundtrip_witness :
    ((runOp stLive oFail (MOp.setFlags 5)).1 =
       Except.error (PyError.magicException oFail.failMsg oFail.failErrno) ∧
     (runOp stLive oFail (MOp.setFlags 5)).2.1.flags = stLive.flags) ∧
    ((runOp stLive oDet (MOp.setFlags 5)).2.1.flags = 5 ∧
     (runOp ((runOp stLive oDet (MOp.setFlags 5)).2.1) oFail MOp.getFlags).1 =
       Except.ok (PyValue.int 5)) :=
  ⟨(C4_set_flags_roundtrip stLive oFail oDet 5).1 rfl,
   (C4_set_flags_roundtrip stLive oDet oFail 5).2 (by decide)⟩

/-- C5: whenever a wrapper operation raises `MagicException`, the message
and code it carries are exactly the diagnostics the native layer installed
for the failing call, and the `magic_error` and `magic_errno` queries were
made on the cookie while the session lock was still held. -/
theorem C5_error_decoding_under_lock :
    ∀ (st : MagicState) (o : Oracle) (op : MOp) (m : Option (List Nat))
      (e : Int) (st' : MagicState) (tr : List Event),
      runOp st o op = (Except.error (PyError.magicException m e), st', tr) →
      m = o.failMsg ∧ e = o.failErrno ∧
      FName.magic_error ∈ callsHeld false tr ∧
      FName.magic_errno ∈ callsHeld false tr := by
  intro st o op m e st' tr h
  cases op with
  | fromDescriptor fd => exact detectOp_err _ st o m e st' tr h
  | fromFile filename =>
    simp only [runOp, Magic_from_file] at h
    cases hc : coerce_filename filename with
    | error e2 =>
      rw [hc] at h
      simp at h
      rw [coerce_filename_err _ _ hc] at h
      simp at h
    | ok bv =>
      rw [hc] at h
      exact detectOp_err _ st o m e st' tr h
  | fromBuffer buffer =>
    cases buffer with
    | bytes bs => exact detectOp_err _ st o m e st' tr h
    | none => simp [runOp, Magic_from_buffer] at h
    | bool b => simp [runOp, Magic_from_buffer] at h
    | int n => simp [runOp, Magic_from_buffer] at h
    | str s => simp [runOp, Magic_from_buffer] at h
  | getFlags => simp [runOp, Magic_get_flags] at h
  | setFlags f => exact set_flags_err st o f m e st' tr h
  | checkDb db => exact dbOp_err _ st o db m e st' tr h
  | compileDb db => exact dbOp_err _ st o db m e st' tr h
  | listDb db => exact dbOp_err _ st o db m e st' tr h
  | loadDb db => exact dbOp_err _ st o db m e st' tr h
  | getParam p => exact get_param_err st o p m e st' tr h
  | setParam p v => exact set_param_err st o p v m e st' tr h
  | getVersion => simp [runOp, Magic_get_version] at h

/-- The state after a failing `set_flags` on the concrete session. -/
def stFailed : MagicState :=
  { stLive with native :=
    { nst0 with errMsg := some [101, 114, 114], nerrno := 22 } }

/-- The trace of a failing `set_flags` on the concrete session. -/
def trFailed : List Event :=
  [Event.acquire, Event.call FName.magic_setflags true,
   Event.call FName.magic_error true, Event.call FName.magic_errno true,
   Event.release]

/-- Witness for C5 at a concrete failing `set_flags`. -/
theorem C5_error_decoding_under_lock_witness :
    some [101, 114, 114] = oFail.failMsg ∧ (22 : Int) = oFail.failErrno ∧
    FName.magic_error ∈ callsHeld false trFailed ∧
    FName.magic_errno ∈ callsHeld false trFailed :=
  C5_error_decoding_under_lock stLive oFail (MOp.setFlags 5)
    (some [101, 114, 114]) 22 stFailed trFailed rfl

/-- C6 (amended): `coerce_filename` marshals `None` to the native null
pointer (not an empty byte string); on every text path whose surrogates
all lie in the escape range U+DC80..U+DCFF — which covers every string
produced by surrogateescape filesystem decoding — the encoding succeeds
without raising, and surrogateescape-decoded byte strings round-trip
verbatim, without truncation.  (Totality on *all* strings fails: see the
counterexample with a lone surrogate outside the escape range.) -/
theorem C6_coerce_filename_amended :
    (coerce_filename PyValue.none = Except.ok PyValue.none ∧
     PyValue.none ≠ PyValue.bytes []) ∧
    (∀ s : List Nat, (∀ cp ∈ s, fsSafe cp) →
      ∃ bs : List Nat,
        coerce_filename (PyValue.str s) = Except.ok (PyValue.bytes bs)) ∧
    (∀ bs : List Nat, (∀ x ∈ bs, x < 0x100) →
      coerce_filename (PyValue.str (decodeSE bs)) =
        Except.ok (PyValue.bytes bs)) := by
  refine ⟨⟨rfl, by simp⟩, ?_, ?_⟩
  · intro s hs
    obtain ⟨bs, hbs⟩ := Option.isSome_iff_exists.mp (encodeSE_isSome s hs)
    exact ⟨bs, by simp [coerce_filename, hbs]⟩
  · intro bs hbs
    simp [coerce_filename, encodeSE_decodeSE bs hbs]

/-- Witness for C6: a path with an undecodable byte (0xFF) round-trips,
and a filesystem-safe string encodes. -/
theorem C6_coerce_filename_amended_witness :
    coerce_filename (PyValue.str (decodeSE [0x66, 0xFF, 0x6F])) =
      Except.ok (PyValue.bytes [0x66, 0xFF, 0x6F]) :=
  C6_coerce_filename_amended.2.2 [0x66, 0xFF, 0x6F] (by decide)

/-- C6 counterexample: a text path containing the lone surrogate U+D800
(outside the surrogateescape range) makes the coercion raise
`UnicodeEncodeError` — the helper is not total on every text path. -/
theorem C6_lone_surrogate_raises :
    coerce_filename (PyValue.str [0xD800]) =
      Except.error PyError.unicodeEncodeError := rfl

/-- C7: resolving a native entry point distinguishes the two failures —
a name absent from the static `_methods` table fails with
`AttributeError` (unknown operation), a name present in the table but not
exported by the loaded library fails with `NotImplementedError`
(unsupported by the installed version) — and a name passing both checks
yields the callable with the table's declared `restype` and `argtypes`
marshaling applied. -/
theorem C7_getattr_resolution :
    ∀ (exported : List String) (item : String),
      (lookupMethod item = Option.none →
        MagicDLL_getattr exported item = GetattrResult.attributeError item) ∧
      (∀ d : MagicDLLDefinition, lookupMethod item = some d →
        item ∉ exported →
        MagicDLL_getattr exported item =
          GetattrResult.notImplementedError item) ∧
      (∀ d : MagicDLLDefinition, lookupMethod item = some d →
        item ∈ exported →
        MagicDLL_getattr exported item =
          GetattrResult.ok { name := item, restype := d.restype,
                             argtypes := d.argtypes }) := by
  intro exported item
  refine ⟨?_, ?_, ?_⟩
  · intro h
    simp [MagicDLL_getattr, h]
  · intro d h hmem
    have hsw := lookupMethod_startsWith item d h
    simp [MagicDLL_getattr, h, hsw, hmem]
  · intro d h hmem
    have hsw := lookupMethod_startsWith item d h
    simp [MagicDLL_getattr, h, hsw, hmem]

/-- Witness for C7: resolving `magic_open` against a library exporting
it, and against one not exporting it, and resolving an unknown name. -/
theorem C7_getattr_resolution_witness :
    MagicDLL_getattr ["magic_open"] ("magic_open") =
      GetattrResult.ok { name := "magic_open", restype := some magic_t,
                         argtypes := [CType.c_int] } :=
  (C7_getattr_resolution ["magic_open"] ("magic_open")).2.2
    { restype := some magic_t, argtypes := [CType.c_int] }
    (by decide) (by decide)

/-- C8 (amended): each detection operation returns, while still holding
the lock, the caller-owned `bytes` copy that the `c_char_p` result
marshaling makes of the native result buffer — so the returned value is
independent of the native session's buffer afterwards — but it is raw
`bytes`, not a decoded text string. -/
theorem C8_detection_returns_bytes_copy :
    ∀ (st : MagicState) (o : Oracle) (fd : Int) (bs r : List Nat),
      o.detect = some r →
      ((Magic_from_descriptor st o fd).1 = Except.ok (PyValue.bytes r) ∧
       (Magic_from_descriptor st o fd).2.1.native.buffer = r ∧
       FName.magic_descriptor ∈
         callsHeld false (Magic_from_descriptor st o fd).2.2) ∧
      ((Magic_from_file st o PyValue.none).1 = Except.ok (PyValue.bytes r) ∧
       FName.magic_file ∈
         callsHeld false (Magic_from_file st o PyValue.none).2.2) ∧
      ((Magic_from_buffer st o (PyValue.bytes bs)).1 =
         Except.ok (PyValue.bytes r) ∧
       FName.magic_buffer ∈
         callsHeld false (Magic_from_buffer st o (PyValue.bytes bs)).2.2) := by
  intro st o fd bs r h
  refine ⟨detectOp_ok _ st o r h, ?_, ?_⟩
  · have hd := detectOp_ok FName.magic_file st o r h
    exact ⟨hd.1, hd.2.2⟩
  · have hd := detectOp_ok FName.magic_buffer st o r h
    exact ⟨hd.1, hd.2.2⟩

/-- Witness for C8 at the concrete `%PDF` buffer. -/
theorem C8_detection_returns_bytes_copy_witness :
    (Magic_from_buffer stLive oDet (PyValue.bytes [37, 80, 68, 70])).1 =
      Except.ok (PyValue.bytes [80, 68, 70]) :=
  ((C8_detection_returns_bytes_copy stLive oDet 0 [37, 80, 68, 70]
      [80, 68, 70] rfl).2.2).1

/-- C8 counterexample: the value a detection operation returns is a
`bytes` object, not a decoded (`str`) string. -/
theorem C8_result_is_not_str :
    (Magic_from_buffer stLive oDet (PyValue.bytes [37, 80, 68, 70])).1 =
      Except.ok (PyValue.bytes [80, 68, 70]) ∧
    PyValue.isStr (PyValue.bytes [80, 68, 70]) = false := ⟨rfl, rfl⟩

/-- C9 (amended): every public detection/configuration operation holds
the session lock for its full duration — every cookie-taking native call,
including the error/errno decoding, happens between the acquire and the
release — and so does the constructor's database load; the finalizer,
however, calls `magic_close` on the cookie without taking the lock. -/
theorem C9_lock_discipline :
    (∀ (st : MagicState) (o : Oracle) (op : MOp),
      lockedOk false (runOp st o op).2.2 = true) ∧
    (∀ (o : Oracle) (flags : Int) (db : PyValue) (openRes : Option Int)
        (nst : NativeState),
      lockedOk false (Magic_init o flags db openRes nst).2 = true) ∧
    (∀ st : MagicState, st.dll = true → st.cookie.isSome = true →
      lockedOk false (Magic_del st).2 = false) := by
  refine ⟨?_, ?_, ?_⟩
  · intro st o op
    cases op with
    | fromDescriptor fd => exact detectOp_lockedOk _ st o
    | fromFile filename =>
      simp only [runOp, Magic_from_file]
      split
      · exact lockedOk_bare
      · exact detectOp_lockedOk _ st o
    | fromBuffer buffer =>
      cases buffer with
      | bytes bs => exact detectOp_lockedOk _ st o
      | none => rfl
      | bool b => rfl
      | int n => rfl
      | str s => rfl
    | getFlags => rfl
    | setFlags f => exact set_flags_lockedOk st o f
    | checkDb db => exact dbOp_lockedOk _ st o db
    | compileDb db => exact dbOp_lockedOk _ st o db
    | listDb db => exact dbOp_lockedOk _ st o db
    | loadDb db => exact dbOp_lockedOk _ st o db
    | getParam p => exact get_param_lockedOk st o p
    | setParam p v => exact set_param_lockedOk st o p v
    | getVersion => rfl
  · intro o flags db openRes nst
    simp only [Magic_init]
    split <;> simp [lockedOk] <;> exact dbOp_lockedOk _ _ o db
  · intro st h1 h2
    simp [Magic_del, h1, h2, lockedOk]

/-- Witness for C9: the finalizer of the concrete live session closes the
cookie outside the lock. -/
theorem C9_lock_discipline_witness :
    lockedOk false (Magic_del stLive).2 = false :=
  C9_lock_discipline.2.2 stLive rfl rfl

/-- C9 counterexample: a concrete cookie-touching session operation —
the finalizer's `magic_close` — runs with the lock not held, so it is not
the case that every operation touching the cookie holds the lock for its
full duration. -/
theorem C9_finalizer_closes_without_lock :
    (Magic_del stLive).2 = [Event.call FName.magic_close true] ∧
    lockedOk false [Event.call FName.magic_close true] = false := ⟨rfl, rfl⟩
